import Mathlib

/-!
Verification of the `aws_ec2_instance_state` resource
(`internal/service/ec2/ec2_instance_state.go`).

The Go code is a thin CRUD shim: each lifecycle hook calls out to a remote
API (an instance-readiness waiter, a start call, a stop call, an
instance-state lookup) and otherwise manipulates the resource's attribute
record.  We embed it shallowly: the outcomes of the remote calls are inputs
(an environment), each hook is a pure function from that environment and the
resource data to its result together with the list of remote calls it
issued, in order.
-/

namespace AwsEc2

/-- Go `error` values; only their presence and identity matter here. -/
abbrev GoError := String

/-- Go `time.Duration` is an integer count of nanoseconds; `time.Minute`. -/
def timeMinute : Nat := 60000000000

/-- `awstypes.InstanceState`: the named state of an instance
(`running`, `stopped`, `pending`, ...). -/
structure InstanceState where
  name : String
  deriving DecidableEq, Repr

/-- `awstypes.Instance`, restricted to the fields this resource touches.
Both fields are pointers in Go (`*string`, `*InstanceState`), hence `Option`:
`none` models a nil pointer. -/
structure Instance where
  instanceId : Option String
  state : Option InstanceState
  deriving DecidableEq, Repr

/-- `aws.ToString`: dereference a `*string`, with `nil` mapped to `""`. -/
def awsToString : Option String → String
  | none => ""
  | some s => s

/-- One remote API call issued by the resource, as observable from the code:
the readiness wait (with the timeout passed to it), a stop-instance call
(with its force flag), a start-instance call (with its force flag), and the
instance-state lookup done by Read.  The stop and start calls are each
additionally bounded by a fixed timeout constant declared outside this file
in the repository; no claim depends on those constants' values. -/
inductive RemoteCall where
  | waitReady (id : String) (timeout : Nat)
  | stop (id : String) (force : Bool)
  | start (id : String) (force : Bool)
  | findState (id : String)
  deriving DecidableEq, Repr

/-- Is the call a power-state transition (start or stop)? -/
def RemoteCall.isTransition : RemoteCall → Bool
  | .stop _ _ => true
  | .start _ _ => true
  | _ => false

/-- Error outcome of `findInstanceStateByID`: either the distinguished
not-found condition recognised by `tfresource.NotFound`, or any other
API error. -/
inductive FindErr where
  | notFound
  | other (e : GoError)
  deriving DecidableEq, Repr

/-- The Go error value carried by a `FindErr` (the not-found sentinel has a
fixed message supplied by the `tfresource` library). -/
def findErrMsg : FindErr → GoError
  | .notFound => "couldn't find resource"
  | .other e => e

/-- `tfresource.NotFound(err)`: does the lookup's error match the
not-found sentinel? -/
def tfresourceNotFound : Except FindErr InstanceState → Bool
  | .error .notFound => true
  | _ => false

/-- One entry of `diag.Diagnostics`.  Every diagnostic appended by this
resource is an error (blocking) diagnostic: `create.AppendDiagError` builds
`readError`, `sdkdiag.AppendFromErr` builds `fromErr`. -/
inductive Diag where
  | readError (resource : String) (id : String) (e : GoError)
  | fromErr (e : GoError)
  deriving DecidableEq, Repr

/-- `create.ResInstance`, the resource name used in Create/Update wait
diagnostics (declared elsewhere in the ec2 package). -/
def ResInstance : String := "Instance"

/-- `ResInstanceState`, the resource name used in Read diagnostics
(declared elsewhere in the ec2 package). -/
def ResInstanceState : String := "Instance State"

/-- `awstypes.InstanceStateNameRunning`. -/
def InstanceStateNameRunning : String := "running"

/-- `awstypes.InstanceStateNameStopped`. -/
def InstanceStateNameStopped : String := "stopped"

/-- The resource's `Timeouts` block. -/
structure ResourceTimeout where
  create : Nat
  update : Nat
  delete : Nat
  deriving DecidableEq, Repr

/-- The schema-level configuration of `resourceInstanceState` that the
claims mention: the timeout defaults and the declared attribute behaviour. -/
structure ResourceSpec where
  timeouts : ResourceTimeout
  forceOptional : Bool
  forceDefault : Bool
  instanceIdForceNew : Bool
  stateAllowed : List String
  deriving DecidableEq, Repr

/-- `resourceInstanceState()`: the static schema of `aws_ec2_instance_state`
(lines 26-61 of the Go file): default timeouts of 10 minutes for Create,
10 minutes for Update and 1 minute for Delete; `force` optional with default
`false`; `instance_id` ForceNew; `state` restricted to running/stopped. -/
def resourceInstanceState : ResourceSpec :=
  { timeouts := { create := 10 * timeMinute, update := 10 * timeMinute,
                  delete := 1 * timeMinute },
    forceOptional := true,
    forceDefault := false,
    instanceIdForceNew := true,
    stateAllowed := [InstanceStateNameRunning, InstanceStateNameStopped] }

/-- The `*schema.ResourceData` record as this resource uses it: the
resource id (`d.Id()`; `""` means the resource is removed from tracking),
the three declared attributes, the framework flags `d.IsNewResource()` and
`d.HasChange("state")`, the old value reported by `d.GetChange("state")`
(its new value is the current `state` attribute), and the resolved
operation timeouts returned by `d.Timeout(...)`. -/
structure ResourceData where
  id : String
  instance_id : String
  state : String
  force : Bool
  isNewResource : Bool
  hasChangeState : Bool
  oldState : String
  timeoutCreate : Nat
  timeoutUpdate : Nat
  deriving DecidableEq, Repr

/-- Outcomes of the stop-instance and start-instance remote calls supplied
by the environment: `none` is success, `some e` is the call failing with
error `e`. -/
structure Env where
  stopResult : Option GoError
  startResult : Option GoError
  deriving DecidableEq, Repr

/-- Result of running a Go function that may hit a nil-pointer dereference:
either its ordinary return value or a runtime panic. -/
inductive GoResult (α : Type) where
  | ok (a : α)
  | nilDeref
  deriving DecidableEq, Repr

/-- `updateInstanceState` (lines 139-157): if the current state already
equals the configured state, return nil without calling anything; otherwise
if the configured state is `"stopped"`, stop the instance (passing `force`)
and return early on failure; then if the configured state is `"running"`,
start the instance (force hard-coded to `false`) and return early on
failure; finally return nil.  The result is the returned error paired with
the remote calls issued, in order. -/
def updateInstanceState (env : Env) (id currentState configuredState : String)
    (force : Bool) : Option GoError × List RemoteCall :=
  if currentState = configuredState then
    (none, [])
  else
    let stopCalls := if configuredState = "stopped" then [RemoteCall.stop id force] else []
    let stopErr := if configuredState = "stopped" then env.stopResult else none
    match stopErr with
    | some e => (some e, stopCalls)
    | none =>
      let startCalls := if configuredState = "running" then [RemoteCall.start id false] else []
      let startErr := if configuredState = "running" then env.startResult else none
      match startErr with
      | some e => (some e, stopCalls ++ startCalls)
      | none => (none, stopCalls ++ startCalls)

/-- `resourceInstanceStateRead` (lines 86-108): look the instance state up
by `d.Id()`; if that reports not-found and the resource is not new, clear
the id (drop the resource from tracking) and succeed with no diagnostics;
on any other lookup error append a blocking read-error diagnostic; otherwise
set `instance_id` from `d.Id()`, `state` from the observation, and rewrite
`force` with its own stored value. -/
def resourceInstanceStateRead (find : Except FindErr InstanceState)
    (d : ResourceData) : ResourceData × List Diag × List RemoteCall :=
  let calls := [RemoteCall.findState d.id]
  if !d.isNewResource && tfresourceNotFound find then
    ({ d with id := "" }, [], calls)
  else
    match find with
    | .error e => (d, [Diag.readError ResInstanceState d.id (findErrMsg e)], calls)
    | .ok state =>
      ({ d with instance_id := d.id, state := state.name, force := d.force }, [], calls)

/-- `resourceInstanceStateCreate` (lines 63-84): wait for the instance
named by the `instance_id` attribute to be ready, passing the Create
timeout; on wait error append a read-error diagnostic naming `instanceId`;
otherwise reconcile from the observed `instance.State.Name` (a nil
`instance` or `instance.State` pointer would panic here) toward the
configured state; on reconcile error append it; then set the id and run
Read.  `wait` is the pair returned by `waitInstanceReady`. -/
def resourceInstanceStateCreate (wait : Option Instance × Option GoError)
    (env : Env) (find : Except FindErr InstanceState) (d : ResourceData) :
    GoResult (ResourceData × List Diag) × List RemoteCall :=
  let instanceId := d.instance_id
  let waitCalls := [RemoteCall.waitReady instanceId d.timeoutCreate]
  match wait.2 with
  | some instanceErr =>
    (.ok (d, [Diag.readError ResInstance instanceId instanceErr]), waitCalls)
  | none =>
    match wait.1 with
    | none => (.nilDeref, waitCalls)
    | some inst =>
      match inst.state with
      | none => (.nilDeref, waitCalls)
      | some st =>
        let r := updateInstanceState env instanceId st.name d.state d.force
        match r.1 with
        | some e => (.ok (d, [Diag.fromErr e]), waitCalls ++ r.2)
        | none =>
          let d1 := { d with id := d.instance_id }
          let rd := resourceInstanceStateRead find d1
          (.ok (rd.1, rd.2.1), waitCalls ++ r.2 ++ rd.2.2)

/-- `resourceInstanceStateUpdate` (lines 110-131): wait for the instance
named by `d.Id()` to be ready, passing the Update timeout; on wait error
build a read-error diagnostic whose subject is
`aws.ToString(instance.InstanceId)` — this dereferences the returned
instance pointer, so a nil instance panics; otherwise, if the `state`
attribute changed, reconcile old to new with the stored `force`; on
reconcile error append it; finally run Read. -/
def resourceInstanceStateUpdate (wait : Option Instance × Option GoError)
    (env : Env) (find : Except FindErr InstanceState) (d : ResourceData) :
    GoResult (ResourceData × List Diag) × List RemoteCall :=
  let waitCalls := [RemoteCall.waitReady d.id d.timeoutUpdate]
  match wait.2 with
  | some instanceErr =>
    match wait.1 with
    | none => (.nilDeref, waitCalls)
    | some inst =>
      (.ok (d, [Diag.readError ResInstance (awsToString inst.instanceId) instanceErr]),
       waitCalls)
  | none =>
    if d.hasChangeState then
      let r := updateInstanceState env d.id d.oldState d.state d.force
      match r.1 with
      | some e => (.ok (d, [Diag.fromErr e]), waitCalls ++ r.2)
      | none =>
        let rd := resourceInstanceStateRead find d
        (.ok (rd.1, rd.2.1), waitCalls ++ r.2 ++ rd.2.2)
    else
      let rd := resourceInstanceStateRead find d
      (.ok (rd.1, rd.2.1), waitCalls ++ rd.2.2)

/-- `resourceInstanceStateDelete` (lines 133-137): log and return nil
diagnostics; no remote call is issued and the instance is left as is. -/
def resourceInstanceStateDelete (_d : ResourceData) : List Diag × List RemoteCall :=
  ([], [])

/-- Modelled from the spec: `waitInstanceReady` is declared outside the
given sources; per the spec it is "an instance-readiness waiter returning
the instance's current named state or a not-ready/timeout error", so a
success carries the instance and an error outcome carries no instance value
(in Go, a nil `*awstypes.Instance` alongside the error). -/
def specWaitInstanceReady : Except GoError Instance → Option Instance × Option GoError
  | .ok inst => (some inst, none)
  | .error e => (none, some e)

/-! ## Claims about the reconciliation core `updateInstanceState` -/

/-- Claim C1: for every current state `S` and every force value,
`updateInstanceState` invoked with `currentState = configuredState = S`
returns success (nil error) without issuing any remote stop or start call. -/
theorem updateInstanceState_same_state_noop (env : Env) (id S : String) (force : Bool) :
    updateInstanceState env id S S force = (none, []) := by
  simp [updateInstanceState]

/-- Claim C2: for every current state different from `"stopped"` and desired
state `"stopped"`, `updateInstanceState` issues exactly one stop call,
passing through the caller's force flag, and returns exactly the stop
call's outcome (so a stop failure is propagated as its own result). -/
theorem updateInstanceState_to_stopped (env : Env) (id cur : String) (force : Bool)
    (h : cur ≠ "stopped") :
    updateInstanceState env id cur "stopped" force =
      (env.stopResult, [RemoteCall.stop id force]) := by
  rcases henv : env.stopResult with _ | e <;>
    simp [updateInstanceState, h, henv]

/-- Claim C2 witness: reconciling from `"running"` to `"stopped"` with
`force = true` and a failing stop call issues one forced stop and returns
the stop error. -/
theorem updateInstanceState_to_stopped_witness :
    updateInstanceState ⟨some "stop failed", none⟩ "i-1" "running" "stopped" true =
      (some "stop failed", [RemoteCall.stop "i-1" true]) :=
  updateInstanceState_to_stopped ⟨some "stop failed", none⟩ "i-1" "running" true
    (by decide)

/-- Claim C3: for every current state different from `"running"` and desired
state `"running"`, and every force value, `updateInstanceState` issues
exactly one start call with the force flag hard-coded to `false`, and
returns exactly the start call's outcome (so a start failure is propagated
as its own result). -/
theorem updateInstanceState_to_running (env : Env) (id cur : String) (force : Bool)
    (h : cur ≠ "running") :
    updateInstanceState env id cur "running" force =
      (env.startResult, [RemoteCall.start id false]) := by
  rcases henv : env.startResult with _ | e <;>
    simp [updateInstanceState, h, henv]

/-- Claim C3 witness: reconciling from `"stopped"` to `"running"` with
`force = true` and a failing start call issues one start call with
`force = false` and returns the start error. -/
theorem updateInstanceState_to_running_witness :
    updateInstanceState ⟨none, some "start failed"⟩ "i-1" "stopped" "running" true =
      (some "start failed", [RemoteCall.start "i-1" false]) :=
  updateInstanceState_to_running ⟨none, some "start failed"⟩ "i-1" "stopped" true
    (by decide)

/-- Claim C4: for any two current states both different from the desired
state, `updateInstanceState` behaves identically — same returned error and
same sequence of remote calls — since the current state is used only in the
equality test against the desired state. -/
theorem updateInstanceState_current_irrelevant (env : Env) (id c1 c2 desired : String)
    (force : Bool) (h1 : c1 ≠ desired) (h2 : c2 ≠ desired) :
    updateInstanceState env id c1 desired force =
      updateInstanceState env id c2 desired force := by
  simp [updateInstanceState, h1, h2]

/-- Claim C4 witness: reconciling `"pending"` toward `"running"` behaves
identically to reconciling `"stopped"` toward `"running"`. -/
theorem updateInstanceState_current_irrelevant_witness :
    updateInstanceState ⟨none, none⟩ "i-1" "pending" "running" true =
      updateInstanceState ⟨none, none⟩ "i-1" "stopped" "running" true :=
  updateInstanceState_current_irrelevant ⟨none, none⟩ "i-1" "pending" "stopped" "running"
    true (by decide) (by decide)

/-! ## Claims about Read and Delete -/

/-- Claim C6: when the instance lookup reports not-found and the resource is
not newly created, Read clears the resource's identity (id set to `""`,
dropping it from tracking) and returns success with no diagnostic; in every
other error case of the lookup — any non-not-found error, or not-found on a
new resource — Read returns a single blocking error diagnostic and leaves
the data unchanged. -/
theorem read_notFound_drops_otherwise_errors (d : ResourceData) :
    (d.isNewResource = false →
      resourceInstanceStateRead (Except.error FindErr.notFound) d =
        ({ d with id := "" }, [], [RemoteCall.findState d.id])) ∧
    (∀ e : FindErr, d.isNewResource = true ∨ e ≠ FindErr.notFound →
      resourceInstanceStateRead (Except.error e) d =
        (d, [Diag.readError ResInstanceState d.id (findErrMsg e)],
         [RemoteCall.findState d.id])) := by
  constructor
  · intro h
    simp [resourceInstanceStateRead, tfresourceNotFound, h]
  · intro e h
    rcases h with h | h
    · cases e <;> simp [resourceInstanceStateRead, tfresourceNotFound, h]
    · cases e with
      | notFound => exact absurd rfl h
      | other m => simp [resourceInstanceStateRead, tfresourceNotFound]

/-- Claim C6 witness: on an existing (non-new) resource, a not-found lookup
clears the id with no diagnostic, while a non-not-found lookup error yields
one blocking error diagnostic. -/
theorem read_notFound_drops_otherwise_errors_witness :
    (resourceInstanceStateRead (Except.error FindErr.notFound)
        ⟨"i-0", "i-0", "running", false, false, false, "running", 0, 0⟩ =
      (⟨"", "i-0", "running", false, false, false, "running", 0, 0⟩, [],
       [RemoteCall.findState "i-0"])) ∧
    (resourceInstanceStateRead (Except.error (FindErr.other "api down"))
        ⟨"i-0", "i-0", "running", false, false, false, "running", 0, 0⟩ =
      (⟨"i-0", "i-0", "running", false, false, false, "running", 0, 0⟩,
       [Diag.readError ResInstanceState "i-0" "api down"],
       [RemoteCall.findState "i-0"])) := by
  have h := read_notFound_drops_otherwise_errors
    ⟨"i-0", "i-0", "running", false, false, false, "running", 0, 0⟩
  exact ⟨h.1 rfl, h.2 (FindErr.other "api down") (Or.inr (by decide))⟩

/-- Claim C7: Delete issues no remote call and returns success
unconditionally (empty diagnostics), for every resource. -/
theorem delete_is_pure_bookkeeping (d : ResourceData) :
    resourceInstanceStateDelete d = ([], []) := rfl

/-- Claim C8: on a successful lookup, Read sets `instance_id` from the
looked-up id, sets `state` from the observed state name, rewrites `force`
with its own stored value (leaving it unchanged), modifies no other field,
and returns no diagnostic. -/
theorem read_found_sets_attributes (d : ResourceData) (st : InstanceState) :
    resourceInstanceStateRead (Except.ok st) d =
      ({ d with instance_id := d.id, state := st.name, force := d.force },
       [], [RemoteCall.findState d.id]) := by
  simp [resourceInstanceStateRead, tfresourceNotFound]

/-! ## Claims about Create, Update, and the schema timeouts -/

/-- Helper: Read always issues exactly one remote call, the state lookup by
the resource id, whatever the lookup's outcome. -/
theorem read_calls (find : Except FindErr InstanceState) (d : ResourceData) :
    (resourceInstanceStateRead find d).2.2 = [RemoteCall.findState d.id] := by
  unfold resourceInstanceStateRead
  split
  · rfl
  · cases find <;> rfl

/-- Claim C9: the resource's configured default timeouts are 10 minutes for
Create, 10 minutes for Update and 1 minute for Delete, and the first remote
call of Create (resp. Update) is always the readiness wait carrying the
resolved Create (resp. Update) timeout. -/
theorem resourceInstanceState_timeouts :
    resourceInstanceState.timeouts =
      ⟨10 * timeMinute, 10 * timeMinute, 1 * timeMinute⟩ ∧
    (∀ (wait : Option Instance × Option GoError) (env : Env)
        (find : Except FindErr InstanceState) (d : ResourceData),
      (resourceInstanceStateCreate wait env find d).2.head? =
        some (RemoteCall.waitReady d.instance_id d.timeoutCreate)) ∧
    (∀ (wait : Option Instance × Option GoError) (env : Env)
        (find : Except FindErr InstanceState) (d : ResourceData),
      (resourceInstanceStateUpdate wait env find d).2.head? =
        some (RemoteCall.waitReady d.id d.timeoutUpdate)) := by
  refine ⟨rfl, ?_, ?_⟩
  · intro wait env find d
    rcases wait with ⟨wi, we⟩
    cases we with
    | some e => rfl
    | none =>
      rcases wi with _ | ⟨iid, ist⟩
      · rfl
      · cases ist with
        | none => rfl
        | some st =>
          unfold resourceInstanceStateCreate
          dsimp only
          split <;> rfl
  · intro wait env find d
    rcases wait with ⟨wi, we⟩
    cases we with
    | some e => cases wi <;> rfl
    | none =>
      unfold resourceInstanceStateUpdate
      dsimp only
      split
      · split <;> rfl
      · rfl

/-- A concrete Update invocation whose `state` attribute has not changed. -/
def dNoChange : ResourceData :=
  { id := "i-0", instance_id := "i-0", state := "running", force := false,
    isNewResource := false, hasChangeState := false, oldState := "running",
    timeoutCreate := 10 * timeMinute, timeoutUpdate := 10 * timeMinute }

/-- A concrete ready instance observed by the waiter. -/
def instRunning : Instance :=
  { instanceId := some "i-0", state := some { name := "running" } }

/-- Claim C5 counterexample: an Update whose `state` attribute has not
changed still issues a remote call before its final Read refresh — the
readiness wait is always performed, so the claim that no call to the remote
API is issued does not hold. -/
theorem update_unchanged_still_calls_remote :
    dNoChange.hasChangeState = false ∧
    RemoteCall.waitReady "i-0" (10 * timeMinute) ∈
      (resourceInstanceStateUpdate (some instRunning, none) ⟨none, none⟩
        (Except.ok ⟨"running"⟩) dNoChange).2 := by
  refine ⟨rfl, ?_⟩
  decide

/-- Claim C5 (amended): when the `state` attribute has not changed, Update
issues no start or stop transition call; its remote calls are exactly the
readiness wait (always issued) followed, when the wait succeeds, by the
final Read refresh's state lookup. -/
theorem update_unchanged_no_transition (wait : Option Instance × Option GoError)
    (env : Env) (find : Except FindErr InstanceState) (d : ResourceData)
    (h : d.hasChangeState = false) :
    (wait.2 = none →
      (resourceInstanceStateUpdate wait env find d).2 =
        [RemoteCall.waitReady d.id d.timeoutUpdate, RemoteCall.findState d.id]) ∧
    (∀ e, wait.2 = some e →
      (resourceInstanceStateUpdate wait env find d).2 =
        [RemoteCall.waitReady d.id d.timeoutUpdate]) := by
  rcases wait with ⟨wi, we⟩
  constructor
  · intro hw
    cases hw
    simp [resourceInstanceStateUpdate, h, read_calls]
  · intro e hw
    cases hw
    cases wi <;> rfl

/-- Claim C5 (amended) witness: the concrete unchanged Update issues exactly
the readiness wait and the final lookup, with no transition call. -/
theorem update_unchanged_no_transition_witness :
    (resourceInstanceStateUpdate (some instRunning, none) ⟨none, none⟩
        (Except.ok ⟨"running"⟩) dNoChange).2 =
      [RemoteCall.waitReady dNoChange.id dNoChange.timeoutUpdate,
       RemoteCall.findState dNoChange.id] :=
  (update_unchanged_no_transition (some instRunning, none) ⟨none, none⟩
    (Except.ok ⟨"running"⟩) dNoChange rfl).1 rfl

/-- Claim C10 counterexample: under the spec's waiter contract an error
outcome of the wait carries no instance value (a nil pointer); at such an
outcome Update's construction of the error diagnostic dereferences the nil
instance pointer, so the access is not well-defined. -/
theorem update_wait_error_nil_deref :
    (resourceInstanceStateUpdate (specWaitInstanceReady (Except.error "timeout"))
        ⟨none, none⟩ (Except.ok ⟨"running"⟩) dNoChange).1 = GoResult.nilDeref := rfl

/-- Claim C10 (amended): building the wait-error diagnostic dereferences the
instance pointer returned alongside the error, so it is well-defined exactly
when that pointer is non-nil: with a non-nil instance Update returns the
blocking read-error diagnostic for that instance's id, while under the
spec's waiter contract — where an error outcome carries no instance — the
access is a nil-pointer dereference. -/
theorem update_wait_error_deref (env : Env) (find : Except FindErr InstanceState)
    (d : ResourceData) (e : GoError) :
    (∀ inst : Instance,
      (resourceInstanceStateUpdate (some inst, some e) env find d).1 =
        GoResult.ok (d, [Diag.readError ResInstance (awsToString inst.instanceId) e])) ∧
    (resourceInstanceStateUpdate (specWaitInstanceReady (Except.error e)) env find d).1 =
      GoResult.nilDeref := by
  exact ⟨fun inst => rfl, rfl⟩

end AwsEc2
